import Mathlib

/-!
Verification development for the MoodSpot repository.

The definitions below are a shallow embedding of the quota / rate-limiting
logic (`src/services/RateLimiter.js`), the advice personalization logic
(`src/services/MoodAdviceService.js`), the mood-analysis pipeline
(`src/services/MoodAnalysisService.js`) and the persistence guards
(`src/services/LocalStorageManager.js`).  Stateful JavaScript methods become
explicit state-passing functions; wall-clock reads (`getTodayString`,
`getNextMidnight`, `Date.now`) become explicit string parameters; calls to
`Math.random()` become explicit rational-number parameters in [0,1); and
JavaScript exceptions become `Except String` results.
-/

namespace MoodSpot

/-- The three known services: the keys of the `RATE_LIMITS` constant in
`RateLimiter.js` (`openai`, `googlePlaces`, `database`). -/
inductive Service
  | openai
  | googlePlaces
  | database
deriving DecidableEq, Repr

/-- Daily limits, from `const RATE_LIMITS = { openai: 50, googlePlaces: 250,
database: 1000 }`. -/
def RATE_LIMITS : Service → Nat
  | .openai => 50
  | .googlePlaces => 250
  | .database => 1000

/-- The service-name string used at the JavaScript call sites for each
service. -/
def Service.name : Service → String
  | .openai => "openai"
  | .googlePlaces => "googlePlaces"
  | .database => "database"

/-- Resolve a service-name string to a known service, as the property access
`this.quotas.services[service]` does (an unknown name yields `undefined`,
here `none`). -/
def lookupService (name : String) : Option Service :=
  if name = "openai" then some .openai
  else if name = "googlePlaces" then some .googlePlaces
  else if name = "database" then some .database
  else none

/-- One per-service counter `{ used, limit }` of the quota record. -/
structure ServiceQuota where
  used : Nat
  limit : Nat
deriving DecidableEq, Repr

/-- The `services` object of the quota record, with one entry per known
service. -/
structure QuotaServices where
  openai : ServiceQuota
  googlePlaces : ServiceQuota
  database : ServiceQuota
deriving DecidableEq, Repr

/-- Field access `services[s]` for a known service. -/
def QuotaServices.get (q : QuotaServices) : Service → ServiceQuota
  | .openai => q.openai
  | .googlePlaces => q.googlePlaces
  | .database => q.database

/-- Field update `services[s] = v` for a known service. -/
def QuotaServices.set (q : QuotaServices) : Service → ServiceQuota → QuotaServices
  | .openai, v => { q with openai := v }
  | .googlePlaces, v => { q with googlePlaces := v }
  | .database, v => { q with database := v }

/-- The quota record persisted under the `moodspot_quotas` key:
`{ date, services, resetTime }`. -/
structure QuotaState where
  date : String
  services : QuotaServices
  resetTime : String
deriving DecidableEq, Repr

namespace RateLimiter

/-- `createDefaultQuotas()`: a fresh record for `today` with `used = 0` and
the `RATE_LIMITS` limits for every service.  The wall-clock values
`getTodayString()` and `getNextMidnight()` are passed in as parameters. -/
def createDefaultQuotas (today nextMidnight : String) : QuotaState :=
  { date := today
    services :=
      { openai := { used := 0, limit := RATE_LIMITS .openai }
        googlePlaces := { used := 0, limit := RATE_LIMITS .googlePlaces }
        database := { used := 0, limit := RATE_LIMITS .database } }
    resetTime := nextMidnight }

/-- `resetDailyCounters()`: rebuilds the whole quota record from the defaults
for `today` (the `saveQuotas` persistence call does not affect the record
itself). -/
def resetDailyCounters (today nextMidnight : String) : QuotaState :=
  createDefaultQuotas today nextMidnight

/-- `loadQuotas()`: the stored record when present and parseable, otherwise
the default record (`stored = none` covers both an absent key and corrupt
JSON, whose `catch` also falls back to the defaults). -/
def loadQuotas (stored : Option QuotaState) (today nextMidnight : String) : QuotaState :=
  stored.getD (createDefaultQuotas today nextMidnight)

/-- `checkAndResetDaily()`: resets the record whenever its stored date string
differs from today's date string. -/
def checkAndResetDaily (today nextMidnight : String) (q : QuotaState) : QuotaState :=
  if q.date ≠ today then resetDailyCounters today nextMidnight else q

/-- The limiter's start-up method run from the uninitialized state (the first
rate-limiter operation of the process runs it): load the stored quotas, then
apply the daily-reset check. -/
def init (stored : Option QuotaState) (today nextMidnight : String) : QuotaState :=
  checkAndResetDaily today nextMidnight (loadQuotas stored today nextMidnight)

/-- `checkQuota(service)`: `used < limit` for a known service, `false` for an
unknown one (fails closed). -/
def checkQuota (st : QuotaState) (service : String) : Bool :=
  match lookupService service with
  | none => false
  | some s => (st.services.get s).used < (st.services.get s).limit

/-- `incrementUsage(service)`: returns `false` without mutating when the
service is unknown or `used >= limit`; otherwise increments `used` by 1 and
returns `true`.  The result pairs the returned boolean with the state after
the call. -/
def incrementUsage (st : QuotaState) (service : String) : Bool × QuotaState :=
  match lookupService service with
  | none => (false, st)
  | some s =>
    let sq := st.services.get s
    if sq.used ≥ sq.limit then (false, st)
    else (true, { st with services := st.services.set s { sq with used := sq.used + 1 } })

/-- `getRemainingQuota(service)`: `Math.max(0, limit - used)` for a known
service, `0` for an unknown one.  Computed in `ℤ` because the JavaScript
subtraction can be negative before the `max`. -/
def getRemainingQuota (st : QuotaState) (service : String) : Int :=
  match lookupService service with
  | none => 0
  | some s => max 0 ((st.services.get s).limit - ((st.services.get s).used : Int))

/-- A finite sequence of `incrementUsage` calls, each on a service-name
string, applied left to right. -/
def applyIncrements (st : QuotaState) (calls : List String) : QuotaState :=
  calls.foldl (fun s n => (incrementUsage s n).2) st

/-- `n` consecutive `incrementUsage` calls on the same service, collecting
the returned booleans in order. -/
def incrementRun (st : QuotaState) (service : String) : Nat → List Bool × QuotaState
  | 0 => ([], st)
  | n + 1 =>
    let r := incrementUsage st service
    let rest := incrementRun r.2 service n
    (r.1 :: rest.1, rest.2)

end RateLimiter

/-! ## LocalStorageManager (`src/services/LocalStorageManager.js`)

The IndexedDB object stores are modelled as lists of opaque payload strings;
only the quota-guard behaviour of the write paths matters to the claims. -/

namespace LocalStorageManager

/-- The manager's state: the rate limiter's quota record plus the two object
stores written by `saveSession` / `saveMoodEntry`. -/
structure StorageState where
  quota : QuotaState
  sessions : List String
  moodHistory : List String
deriving DecidableEq, Repr

/-- `checkDatabaseQuota()`: throws `'Daily database operation limit
exceeded'` when `checkQuota('database')` is false; otherwise returns the
boolean result of `incrementUsage('database')` together with the quota state
after the increment. -/
def checkDatabaseQuota (st : QuotaState) : Except String (Bool × QuotaState) :=
  if RateLimiter.checkQuota st "database" then
    Except.ok (RateLimiter.incrementUsage st "database")
  else
    Except.error "Daily database operation limit exceeded"

/-- `saveSession(sessionData)`: propagates any error thrown by
`checkDatabaseQuota`, throws `'Database quota exceeded'` when it returns
false, and otherwise stores the session record. -/
def saveSession (st : StorageState) (sessionData : String) : Except String StorageState :=
  match checkDatabaseQuota st.quota with
  | .error e => .error e
  | .ok (ok, quota') =>
    if ok then
      .ok { st with quota := quota', sessions := sessionData :: st.sessions }
    else
      .error "Database quota exceeded"

/-- `saveMoodEntry(moodData)`: same quota guard as `saveSession`, writing to
the mood-history store. -/
def saveMoodEntry (st : StorageState) (moodData : String) : Except String StorageState :=
  match checkDatabaseQuota st.quota with
  | .error e => .error e
  | .ok (ok, quota') =>
    if ok then
      .ok { st with quota := quota', moodHistory := moodData :: st.moodHistory }
    else
      .error "Database quota exceeded"

end LocalStorageManager

/-! ## MoodAdviceService (`src/services/MoodAdviceService.js`)

Scores, confidences and emotion intensities are JavaScript numbers used with
exact decimal constants; they are modelled as rationals.  An advice object's
optional `relevanceScore` property (added by `personalizeAdvice` and removed
again by its final destructuring) is an `Option ℚ` field that is `none` on
every catalog item. -/

namespace MoodAdviceService

/-- One advice object of the catalog. -/
structure AdviceItem where
  category : String
  title : String
  description : String
  actionSteps : List String
  techniques : List String
  duration : String
  difficulty : String
  relevanceScore : Option ℚ := none
deriving DecidableEq, Repr

/-- One `{ name, intensity }` entry of a mood result's `emotions` array. -/
structure Emotion where
  name : String
  intensity : ℚ
deriving DecidableEq, Repr

/-- The fields of a mood-analysis result that `MoodAdviceService`
destructures (`primaryMood`, `emotions`, `confidence`). -/
structure MoodResult where
  primaryMood : String
  confidence : ℚ
  emotions : List Emotion
deriving DecidableEq, Repr

/-- A prior session as inspected by `calculateRelevanceScore`: its `advice`
property may be absent (`none`, falsy in `session.advice && ...`). -/
structure Session where
  advice : Option (List AdviceItem)
deriving DecidableEq, Repr

/-- The output of `getAdviceForMood` (the `timestamp` field, a wall-clock
read, and the cache write are not modelled). -/
structure AdviceRecommendation where
  mood : String
  intensity : ℚ
  emotions : List Emotion
  advice : List AdviceItem
  personalizedMessage : String
  cacheId : String
deriving DecidableEq, Repr

/-- JavaScript `String.prototype.toLowerCase()`, modelled character by
character (the strings involved are ASCII). -/
def toLowerCase (s : String) : String :=
  String.mk (s.data.map Char.toLower)

/-- `removeDuplicateAdvice`: keep the first occurrence of each
`` `${category}-${title}` `` key, preserving order. -/
def removeDuplicateAdviceAux (seen : List String) : List AdviceItem → List AdviceItem
  | [] => []
  | item :: rest =>
    let key := item.category ++ "-" ++ item.title
    if seen.contains key then removeDuplicateAdviceAux seen rest
    else item :: removeDuplicateAdviceAux (key :: seen) rest

def removeDuplicateAdvice (advice : List AdviceItem) : List AdviceItem :=
  removeDuplicateAdviceAux [] advice

/-- `calculateRelevanceScore(adviceItem, moodResult, userHistory)`. -/
def calculateRelevanceScore (adviceItem : AdviceItem) (moodResult : MoodResult)
    (userHistory : List Session) : ℚ :=
  let score : ℚ := 0.5
  let score := if adviceItem.category = toLowerCase moodResult.primaryMood
    then score + 0.3 else score
  let score := moodResult.emotions.foldl
    (fun acc e => if adviceItem.category = toLowerCase e.name
      then acc + e.intensity * 0.2 else acc) score
  let score := if moodResult.confidence > 0.7 ∧ adviceItem.difficulty = "easy"
    then score + 0.1
    else if moodResult.confidence < 0.5 ∧ adviceItem.difficulty = "medium"
    then score + 0.1
    else score
  let score := if 0 < userHistory.length then
      if userHistory.any (fun session =>
          match session.advice with
          | none => false
          | some used => used.any (fun u => u.category = adviceItem.category))
      then score + 0.15 else score
    else score
  min score 1

/-- The relevance score carried by a scored item (`0` for the impossible
absent case, mirroring an `undefined` score coercing in the comparator). -/
def scoreOf (item : AdviceItem) : ℚ := item.relevanceScore.getD 0

/-- Insert an item into a descending-by-score list, after every item of
greater-or-equal score (the position a stable descending sort gives an
element that originally came later). -/
def insertScored (x : AdviceItem) : List AdviceItem → List AdviceItem
  | [] => [x]
  | y :: ys => if scoreOf y ≤ scoreOf x then x :: y :: ys else y :: insertScored x ys

/-- `.sort((a, b) => b.relevanceScore - a.relevanceScore)`: a stable sort in
descending score order, modelled as stable insertion sort. -/
def sortByScoreDesc (l : List AdviceItem) : List AdviceItem :=
  l.foldr insertScored []

/-- `personalizeAdvice(advice, moodResult, userHistory)`: score every item,
sort descending by score (stable), apply the high-confidence filter, keep the
first 6, and strip the internal score field. -/
def personalizeAdvice (advice : List AdviceItem) (moodResult : MoodResult)
    (userHistory : List Session) : List AdviceItem :=
  let scored := advice.map (fun item =>
    { item with relevanceScore := some (calculateRelevanceScore item moodResult userHistory) })
  let sorted := sortByScoreDesc scored
  let filtered :=
    if moodResult.confidence > 0.8 then
      sorted.filter (fun item => item.difficulty = "easy" ∨ item.category = "immediate_relief")
    else sorted
  (filtered.take 6).map (fun item => { item with relevanceScore := none })

/-- The fixed per-mood message templates of `generatePersonalizedMessage`. -/
def moodMessageTable (moodName : String) : Option (List String) :=
  if moodName = "anxiety" then some
    ["I can see you\x27re feeling anxious right now. These techniques can help calm your nervous system.",
     "Anxiety is challenging, but you have the strength to work through it. Let\x27s start with some grounding exercises.",
     "Your feelings are valid. Here are some proven methods to help ease your anxiety."]
  else if moodName = "sadness" then some
    ["I notice you\x27re going through a difficult time. These gentle activities can help lift your spirits.",
     "It\x27s okay to feel sad. These suggestions focus on small, manageable steps toward feeling better.",
     "Your emotions matter. Let\x27s explore some nurturing ways to support yourself right now."]
  else if moodName = "stress" then some
    ["You seem to be under a lot of pressure. These stress-relief techniques can help you find some calm.",
     "Stress can be overwhelming, but these methods can help you regain your sense of balance.",
     "Let\x27s work on releasing some of that tension with these proven stress-reduction techniques."]
  else if moodName = "happiness" then some
    ["It\x27s wonderful that you\x27re feeling positive! Here are ways to maintain and share this good energy.",
     "Your happiness is beautiful. These suggestions can help you sustain and spread these positive feelings.",
     "Great to see you in a good mood! Let\x27s explore ways to keep this positivity flowing."]
  else none

/-- The generic fallback templates for unrecognized moods. -/
def genericMoodMessages : List String :=
  ["I\x27m here to support you through whatever you\x27re feeling right now.",
   "Every emotion has value. Let\x27s find some helpful techniques for your current state.",
   "You\x27re taking a positive step by seeking support. Here are some personalized suggestions."]

/-- `generatePersonalizedMessage(moodResult, userHistory)`, with the
`Math.floor(Math.random() * length)` template index supplied as `rand`
(reduced modulo the list length). -/
def generatePersonalizedMessage (moodResult : MoodResult) (userHistory : List Session)
    (rand : Nat) : String :=
  let moodMessages := (moodMessageTable (toLowerCase moodResult.primaryMood)).getD genericMoodMessages
  if userHistory.length > 2 then
    "Welcome back! Based on your recent sessions, " ++ toLowerCase (moodMessages.getD 0 "")
  else
    moodMessages.getD (rand % moodMessages.length) ""

/-- `Number.prototype.toFixed(1)`: round to the nearest tenth, ties toward
the larger value, rendered with one digit after the decimal point. -/
def jsToFixed1 (q : ℚ) : String :=
  let n : Int := (q * 10 + 1 / 2).floor
  let sign := if n < 0 then "-" else ""
  sign ++ toString (n.natAbs / 10) ++ "." ++ toString (n.natAbs % 10)

/-- The characters kept by `.replace(/[^a-zA-Z0-9:,-]/g, '')`. -/
def isCacheIdChar (c : Char) : Bool :=
  ('a' ≤ c && c ≤ 'z') || ('A' ≤ c && c ≤ 'Z') || ('0' ≤ c && c ≤ '9')
    || c = ':' || c = ',' || c = '-'

/-- Delete every character outside `[a-zA-Z0-9:,-]`. -/
def stripNonIdChars (s : String) : String :=
  String.mk (s.data.filter isCacheIdChar)

/-- The `` `${e.name}:${e.intensity.toFixed(1)}` `` fragments joined with
commas. -/
def emotionString (emotions : List Emotion) : String :=
  String.intercalate "," (emotions.map (fun e => e.name ++ ":" ++ jsToFixed1 e.intensity))

/-- `generateCacheId(moodResult)`. -/
def generateCacheId (moodResult : MoodResult) : String :=
  stripNonIdChars (moodResult.primaryMood ++ "-" ++ emotionString moodResult.emotions)

/-- The `'anxiety'` entries of `initializeAdviceDatabase`. -/
def anxietyAdvice : List AdviceItem :=
  [{ category := "anxiety"
     title := "Deep Breathing Exercise"
     description := "Calm your nervous system with controlled breathing techniques"
     actionSteps :=
       ["Find a quiet, comfortable space",
        "Sit or lie down with your back straight",
        "Breathe in slowly through your nose for 4 counts",
        "Hold your breath for 4 counts",
        "Exhale slowly through your mouth for 6 counts",
        "Repeat for 5-10 cycles"]
     techniques := ["4-7-8 breathing", "Box breathing", "Belly breathing", "Counted breathing"]
     duration := "5-10 minutes"
     difficulty := "easy" },
   { category := "anxiety"
     title := "Grounding Technique (5-4-3-2-1)"
     description := "Use your senses to anchor yourself in the present moment"
     actionSteps :=
       ["Name 5 things you can see around you",
        "Name 4 things you can touch",
        "Name 3 things you can hear",
        "Name 2 things you can smell",
        "Name 1 thing you can taste"]
     techniques := ["Sensory grounding", "Mindful observation", "Present moment awareness"]
     duration := "3-5 minutes"
     difficulty := "easy" },
   { category := "anxiety"
     title := "Progressive Muscle Relaxation"
     description := "Release physical tension to reduce mental anxiety"
     actionSteps :=
       ["Lie down in a comfortable position",
        "Start with your toes - tense for 5 seconds, then relax",
        "Move up through each muscle group",
        "Focus on the contrast between tension and relaxation",
        "End with your face and scalp muscles"]
     techniques := ["Body scan", "Tension release", "Mindful relaxation"]
     duration := "15-20 minutes"
     difficulty := "medium" },
   { category := "anxiety"
     title := "Calming Visualization"
     description := "Create a mental safe space to reduce anxiety"
     actionSteps :=
       ["Close your eyes and take three deep breaths",
        "Imagine a place where you feel completely safe and calm",
        "Engage all your senses in this visualization",
        "Stay in this space for several minutes",
        "Return to this place whenever you feel anxious"]
     techniques := ["Guided imagery", "Safe place visualization", "Sensory imagination"]
     duration := "10-15 minutes"
     difficulty := "medium" }]

/-- The `'sadness'` entries of `initializeAdviceDatabase`. -/
def sadnessAdvice : List AdviceItem :=
  [{ category := "sadness"
     title := "Gentle Movement"
     description := "Light physical activity to naturally boost mood"
     actionSteps :=
       ["Step outside for fresh air",
        "Take a slow 10-15 minute walk",
        "Focus on your surroundings and nature",
        "Notice three beautiful things during your walk",
        "Practice gratitude for your body\x27s ability to move"]
     techniques := ["Walking meditation", "Nature therapy", "Gratitude practice", "Mindful movement"]
     duration := "10-20 minutes"
     difficulty := "easy" },
   { category := "sadness"
     title := "Creative Expression"
     description := "Channel emotions through artistic activities"
     actionSteps :=
       ["Choose a creative medium (drawing, writing, music)",
        "Set aside 15-30 minutes without distractions",
        "Express your feelings without judgment",
        "Focus on the process, not the outcome",
        "Reflect on what you created"]
     techniques := ["Art therapy", "Journaling", "Music therapy", "Creative flow"]
     duration := "15-30 minutes"
     difficulty := "easy" },
   { category := "sadness"
     title := "Connection and Support"
     description := "Reach out to others for emotional support"
     actionSteps :=
       ["Identify someone you trust and feel comfortable with",
        "Reach out via call, text, or in person",
        "Share how you\x27re feeling honestly",
        "Ask for a listening ear or gentle company",
        "Accept offers of support gracefully"]
     techniques := ["Social support", "Vulnerability practice", "Communication skills"]
     duration := "20-60 minutes"
     difficulty := "medium" },
   { category := "sadness"
     title := "Self-Compassion Practice"
     description := "Treat yourself with kindness during difficult times"
     actionSteps :=
       ["Place your hand on your heart",
        "Acknowledge that you\x27re suffering right now",
        "Remind yourself that suffering is part of human experience",
        "Offer yourself the same kindness you\x27d give a good friend",
        "Speak to yourself with gentle, caring words"]
     techniques := ["Self-compassion meditation", "Loving-kindness practice", "Inner dialogue work"]
     duration := "10-15 minutes"
     difficulty := "medium" }]

/-- The `'stress'` entries of `initializeAdviceDatabase`. -/
def stressAdvice : List AdviceItem :=
  [{ category := "stress"
     title := "Quick Stress Reset"
     description := "Immediate techniques to reduce stress in the moment"
     actionSteps :=
       ["Stop what you\x27re doing and take a pause",
        "Take 5 deep, slow breaths",
        "Drop your shoulders and relax your jaw",
        "Shake out your hands and arms",
        "Remind yourself: \"This feeling will pass\""]
     techniques := ["Pause technique", "Body awareness", "Stress interruption"]
     duration := "2-5 minutes"
     difficulty := "easy" },
   { category := "stress"
     title := "Time Management Technique"
     description := "Organize tasks to reduce overwhelming feelings"
     actionSteps :=
       ["Write down everything on your mind",
        "Categorize tasks as urgent, important, or neither",
        "Choose only 3 priority items for today",
        "Break large tasks into smaller, manageable steps",
        "Schedule specific times for each priority task"]
     techniques := ["Priority matrix", "Task breakdown", "Time blocking"]
     duration := "15-20 minutes"
     difficulty := "medium" },
   { category := "stress"
     title := "Mindful Stress Release"
     description := "Use mindfulness to observe and release stress"
     actionSteps :=
       ["Sit comfortably and close your eyes",
        "Notice where you feel stress in your body",
        "Breathe into those areas without trying to change them",
        "Observe the stress with curiosity, not judgment",
        "Imagine breathing out the tension with each exhale"]
     techniques := ["Body scan meditation", "Mindful breathing", "Tension awareness"]
     duration := "10-15 minutes"
     difficulty := "medium" },
   { category := "stress"
     title := "Physical Stress Release"
     description := "Use movement to discharge stress energy"
     actionSteps :=
       ["Do 10 jumping jacks or run in place for 30 seconds",
        "Stretch your arms overhead and to each side",
        "Roll your shoulders backward 10 times",
        "Gently massage your temples and neck",
        "Take 5 deep breaths to settle"]
     techniques := ["Exercise therapy", "Stretching", "Self-massage", "Energy discharge"]
     duration := "5-10 minutes"
     difficulty := "easy" }]

/-- The `'happiness'` entries of `initializeAdviceDatabase`. -/
def happinessAdvice : List AdviceItem :=
  [{ category := "happiness"
     title := "Gratitude Amplification"
     description := "Deepen and extend your positive feelings"
     actionSteps :=
       ["Write down 3 specific things you\x27re grateful for right now",
        "For each item, write why it matters to you",
        "Share your gratitude with someone else",
        "Take a moment to really feel the appreciation",
        "Set a reminder to practice gratitude daily"]
     techniques := ["Gratitude journaling", "Appreciation practice", "Positive sharing"]
     duration := "10-15 minutes"
     difficulty := "easy" },
   { category := "happiness"
     title := "Joy Sharing"
     description := "Spread your positive energy to others"
     actionSteps :=
       ["Think of someone who would appreciate hearing from you",
        "Send them a message sharing something positive",
        "Compliment a stranger or do a small act of kindness",
        "Share your good mood through a smile or laugh",
        "Plan something fun to do with others"]
     techniques := ["Social connection", "Kindness practice", "Positive communication"]
     duration := "15-30 minutes"
     difficulty := "easy" },
   { category := "happiness"
     title := "Savoring Practice"
     description := "Fully experience and extend positive moments"
     actionSteps :=
       ["Pause and notice what\x27s making you happy right now",
        "Engage all your senses in the experience",
        "Take a mental photograph of this moment",
        "Share the experience with someone you care about",
        "Write about it to remember later"]
     techniques := ["Mindful savoring", "Present moment awareness", "Memory creation"]
     duration := "5-10 minutes"
     difficulty := "easy" },
   { category := "happiness"
     title := "Energy Investment"
     description := "Use your positive energy for meaningful activities"
     actionSteps :=
       ["Choose an activity that aligns with your values",
        "Set a small, achievable goal for today",
        "Take action while your energy is high",
        "Notice how good it feels to make progress",
        "Celebrate your accomplishment"]
     techniques := ["Goal setting", "Value-based action", "Achievement recognition"]
     duration := "30-60 minutes"
     difficulty := "medium" }]

/-- The `'mixed'` entries of `initializeAdviceDatabase`. -/
def mixedAdvice : List AdviceItem :=
  [{ category := "mixed"
     title := "Emotional Check-In"
     description := "Understand and validate complex emotions"
     actionSteps :=
       ["Take a few deep breaths and center yourself",
        "Name each emotion you\x27re experiencing",
        "Rate the intensity of each emotion (1-10)",
        "Ask yourself what each emotion might be telling you",
        "Practice accepting all emotions without judgment"]
     techniques := ["Emotional awareness", "Mindful observation", "Self-validation"]
     duration := "10-15 minutes"
     difficulty := "medium" },
   { category := "mixed"
     title := "Balanced Response"
     description := "Address multiple emotions with balanced techniques"
     actionSteps :=
       ["Choose one calming technique for difficult emotions",
        "Choose one energizing technique for positive emotions",
        "Alternate between both approaches",
        "Notice how your emotional state shifts",
        "Adjust your approach based on what feels most needed"]
     techniques := ["Emotional regulation", "Adaptive coping", "Flexible response"]
     duration := "15-20 minutes"
     difficulty := "medium" }]

/-- The `'anger'` entries of `initializeAdviceDatabase`. -/
def angerAdvice : List AdviceItem :=
  [{ category := "anger"
     title := "Cooling Down Technique"
     description := "Safely discharge anger energy"
     actionSteps :=
       ["Remove yourself from the triggering situation if possible",
        "Count slowly from 1 to 10, breathing deeply",
        "Do vigorous exercise for 5-10 minutes",
        "Write about your feelings without censoring",
        "Wait before responding or making decisions"]
     techniques := ["Anger management", "Physical release", "Emotional processing"]
     duration := "10-20 minutes"
     difficulty := "easy" }]

/-- The `'fear'` entries of `initializeAdviceDatabase`. -/
def fearAdvice : List AdviceItem :=
  [{ category := "fear"
     title := "Courage Building"
     description := "Face fears with gradual, supported steps"
     actionSteps :=
       ["Identify what specifically you\x27re afraid of",
        "Break the fear into smaller, manageable parts",
        "Take one small step toward facing the fear",
        "Use breathing techniques to stay calm",
        "Celebrate your courage in taking any step forward"]
     techniques := ["Gradual exposure", "Fear analysis", "Courage practice"]
     duration := "15-30 minutes"
     difficulty := "medium" }]

/-- `initializeAdviceDatabase()` as a lookup by category key (the `Map` keys
are `anxiety`, `sadness`, `stress`, `happiness`, `mixed`, `anger`, `fear`;
any other key is absent). -/
def adviceDatabase (category : String) : Option (List AdviceItem) :=
  if category = "anxiety" then some anxietyAdvice
  else if category = "sadness" then some sadnessAdvice
  else if category = "stress" then some stressAdvice
  else if category = "happiness" then some happinessAdvice
  else if category = "mixed" then some mixedAdvice
  else if category = "anger" then some angerAdvice
  else if category = "fear" then some fearAdvice
  else none

/-- `getAdviceByCategory(category)`: lowercase the key, then
`this.adviceDatabase.get(normalizedCategory) || []`. -/
def getAdviceByCategory (category : String) : List AdviceItem :=
  (adviceDatabase (toLowerCase category)).getD []

/-- `getAdviceForMood(moodResult, userHistory)`: collect the primary-mood
advice, append advice of each secondary emotion with intensity above 0.3 and
a name different from the primary mood, de-duplicate, personalize, and
assemble the recommendation.  The `Math.random()` draw of the message
templates is the `rand` parameter; the cache write is not modelled. -/
def getAdviceForMood (moodResult : MoodResult) (userHistory : List Session)
    (rand : Nat) : AdviceRecommendation :=
  let base := getAdviceByCategory (toLowerCase moodResult.primaryMood)
  let relevantAdvice := moodResult.emotions.foldl
    (fun acc e =>
      if e.intensity > 0.3 ∧ e.name ≠ moodResult.primaryMood
      then acc ++ getAdviceByCategory (toLowerCase e.name)
      else acc) base
  let uniqueAdvice := removeDuplicateAdvice relevantAdvice
  let personalizedAdvice := personalizeAdvice uniqueAdvice moodResult userHistory
  { mood := moodResult.primaryMood
    intensity := moodResult.confidence
    emotions := moodResult.emotions
    advice := personalizedAdvice
    personalizedMessage := generatePersonalizedMessage moodResult userHistory rand
    cacheId := generateCacheId moodResult }

end MoodAdviceService

/-! ## MoodAnalysisService (`src/services/MoodAnalysisService.js`)

`analyzeMood` is modelled as an `Except String` computation over explicit
inputs: the quota state, the in-memory analysis cache, the canvas export
payload, an oracle for the outcome of `callOpenAIAPI` (the HTTP call and
JSON parsing are outside the shallow embedding), and the `Math.random()`
draws of the mock generator.  `getBusinessCategoriesForMood`, `getApiKey`
and `isDevelopment` come from `src/config/environment.js`, which is not part
of the analysed sources: they enter as the `bizCat`, `hasApiKey` and `isDev`
components of the environment.  Wall-clock metadata fields (timestamps,
image sizes, measured processing time) are not modelled. -/

namespace MoodAnalysisService

/-- The fixed 15-value mood enumeration (`validMoods` in the source). -/
def validMoods : List String :=
  ["happy", "sad", "anxious", "calm", "creative", "energetic", "tired", "angry",
   "excited", "peaceful", "confident", "overwhelmed", "lonely", "frustrated", "inspired"]

/-- One wellness recommendation `{ title, description, icon }`. -/
structure Recommendation where
  title : String
  description : String
  icon : String
deriving DecidableEq, Repr

/-- The `metadata` object attached to an analysis result; only the
`isFallback` marker and the recorded error matter to the claims (an absent
`isFallback` property is falsy, hence `false` here). -/
structure Metadata where
  isFallback : Bool
  error : Option String
deriving DecidableEq, Repr

/-- A mood-analysis result. -/
structure AnalysisResult where
  primaryMood : String
  confidence : ℚ
  description : String
  recommendations : List Recommendation
  processingTime : ℚ := 0
  isMockData : Bool := false
  businessCategories : List String := []
  metadata : Metadata := { isFallback := false, error := none }
deriving DecidableEq, Repr

/-- The canvas export payload; only the `dataUrl` property is read by the
validation logic (the size fields feed unmodelled metadata). -/
structure ExportData where
  dataUrl : Option String
deriving DecidableEq, Repr

/-- `!exportData || !exportData.dataUrl` (an empty string is falsy too). -/
def payloadValid : Option ExportData → Bool
  | none => false
  | some ed =>
    match ed.dataUrl with
    | none => false
    | some u => u ≠ ""

/-- Truncation to a signed 32-bit integer (the implicit `ToInt32` of the
JavaScript bitwise operators). -/
def toInt32 (n : Int) : Int :=
  let m := n % 4294967296
  if m ≥ 2147483648 then m - 4294967296 else m

/-- One step of the cache-key hash:
`hash = ((hash << 5) - hash) + char; hash = hash & hash`. -/
def hashStep (hash : Int) (c : Nat) : Int :=
  toInt32 (toInt32 (hash * 32) - hash + c)

/-- The unsigned 32-bit representation of an `Int`. -/
def toUInt32rep (n : Int) : Nat := (n % 4294967296).toNat

/-- 32-bit bitwise XOR as JavaScript `^` performs it. -/
def xor32 (a b : Int) : Int :=
  toInt32 (Nat.xor (toUInt32rep a) (toUInt32rep b))

/-- The indices `0, step, 2*step, ...` below `len` visited by the sampling
loop (empty when `step = 0`, which only happens for the empty string, whose
loop body never runs). -/
def sampleIndices (len step : Nat) : List Nat :=
  if step = 0 then [] else List.range' 0 ((len + step - 1) / step) step

/-- `generateCacheKey(imageData)`: hash of sampled character codes XORed
with the length, rendered as `` `mood_${Math.abs(hash)}` ``. -/
def generateCacheKey (imageData : String) : String :=
  let len := imageData.length
  let sampleSize := min 1000 len
  let step := len / sampleSize
  let hash := (sampleIndices len step).foldl
    (fun h i => hashStep h (imageData.data.getD i ' ').toNat) 0
  let hash := xor32 hash len
  "mood_" ++ toString hash.natAbs

/-- `pat` is a leading segment of `s`. -/
def takesLead : List Char → List Char → Bool
  | [], _ => true
  | _ :: _, [] => false
  | a :: as, b :: bs => a == b && takesLead as bs

/-- `pat` occurs contiguously somewhere in `s`. -/
def occursIn (pat s : List Char) : Bool :=
  match s with
  | [] => takesLead pat []
  | _ :: rest => takesLead pat s || occursIn pat rest

/-- JavaScript `msg.includes(pat)`. -/
def msgIncludes (msg pat : String) : Bool := occursIn pat.data msg.data

/-- The message of the quota error thrown by `analyzeMood`:
`` `Daily OpenAI quota exceeded (${used}/${limit}). Please try again tomorrow.` ``. -/
def quotaErrorMsg (used limit : Nat) : String :=
  "Daily OpenAI quota exceeded (" ++ toString used ++ "/" ++ toString limit
    ++ "). Please try again tomorrow."

/-- `generateFallbackAnalysis(errorMessage)`: the fixed fallback result with
mood `calm`, confidence 0.5 and the `isFallback` marker.
`getBusinessCategoriesForMood` is the parameter `bizCat` (it lives in
`environment.js`, outside the analysed sources). -/
def generateFallbackAnalysis (errorMessage : String) (bizCat : String → List String) :
    AnalysisResult :=
  { primaryMood := "calm"
    confidence := 0.5
    description := "We encountered an issue analyzing your drawing, but your creative expression is still valuable. Sometimes the act of drawing itself can be therapeutic."
    recommendations :=
      [{ title := "Take a Deep Breath"
         description := "Focus on slow, calming breaths to center yourself in this moment."
         icon := "🫁" },
       { title := "Continue Creating"
         description := "Keep expressing yourself through art - it\x27s a healthy way to process emotions."
         icon := "🎨" },
       { title := "Try Again Later"
         description := "Technical issues happen. Feel free to draw again when you\x27re ready."
         icon := "🔄" }]
    businessCategories := bizCat "calm"
    metadata := { isFallback := true, error := some errorMessage } }

/-- The `moodDatabase` object literal of `generateMockAnalysis`, in insertion
order.  Each entry's confidence consumes one `Math.random()` draw when the
literal is evaluated; the draws are `rs 0` … `rs 14` in source order. -/
def mockMoodData (rs : Nat → ℚ) : List AnalysisResult :=
  [{ primaryMood := "happy"
     confidence := 0.85 + rs 0 * 0.1
     description := "Your drawing radiates joy with bright colors and uplifting strokes."
     recommendations :=
       [{ title := "Share Your Joy", description := "Call a friend and share this positive energy with someone you care about.", icon := "📞" },
        { title := "Celebrate This Moment", description := "Take a photo or write in a gratitude journal to capture this happiness.", icon := "📸" },
        { title := "Spread Positivity", description := "Do something kind for someone else to multiply your joy.", icon := "🌟" }] },
   { primaryMood := "sad"
     confidence := 0.75 + rs 1 * 0.15
     description := "Your drawing shows gentle, melancholic tones suggesting you need comfort."
     recommendations :=
       [{ title := "Gentle Self-Care", description := "Make yourself a warm drink and wrap up in something cozy.", icon := "☕" },
        { title := "Connect with Support", description := "Reach out to a trusted friend or family member for a caring conversation.", icon := "🤗" },
        { title := "Honor Your Feelings", description := "Allow yourself to feel sad - it\x27s okay and this emotion will pass.", icon := "💙" }] },
   { primaryMood := "anxious"
     confidence := 0.78 + rs 2 * 0.12
     description := "Your drawing shows tension and worried energy in the lines and composition."
     recommendations :=
       [{ title := "Deep Breathing", description := "Try 4-7-8 breathing: inhale for 4, hold for 7, exhale for 8 counts.", icon := "🫁" },
        { title := "Grounding Exercise", description := "Name 5 things you see, 4 you can touch, 3 you hear, 2 you smell, 1 you taste.", icon := "🌱" },
        { title := "Gentle Movement", description := "Take a slow walk or do gentle stretches to release physical tension.", icon := "🚶" }] },
   { primaryMood := "calm"
     confidence := 0.82 + rs 3 * 0.08
     description := "Your drawing displays peaceful, flowing lines suggesting inner tranquility."
     recommendations :=
       [{ title := "Mindful Moment", description := "Sit quietly and focus on your breath for 5 minutes to deepen this calm.", icon := "🧘" },
        { title := "Nature Connection", description := "Step outside or look out a window to connect with natural beauty.", icon := "🌿" },
        { title := "Peaceful Activity", description := "Read something inspiring or listen to gentle music.", icon := "📚" }] },
   { primaryMood := "creative"
     confidence := 0.87 + rs 4 * 0.08
     description := "Your drawing shows artistic flair and imaginative expression."
     recommendations :=
       [{ title := "Capture Ideas", description := "Write down or sketch any creative inspirations while they\x27re fresh.", icon := "💡" },
        { title := "Explore Art", description := "Try a new artistic medium or visit a gallery for inspiration.", icon := "🎨" },
        { title := "Creative Project", description := "Start or continue a creative project that excites you.", icon := "✨" }] },
   { primaryMood := "energetic"
     confidence := 0.89 + rs 5 * 0.06
     description := "Your drawing pulses with dynamic energy and vibrant movement."
     recommendations :=
       [{ title := "Physical Activity", description := "Channel this energy into exercise, dancing, or active movement.", icon := "💃" },
        { title := "Productive Tasks", description := "Tackle that project or task you\x27ve been putting off.", icon := "⚡" },
        { title := "Social Energy", description := "Connect with friends for an energizing activity or conversation.", icon := "👥" }] },
   { primaryMood := "tired"
     confidence := 0.73 + rs 6 * 0.12
     description := "Your drawing shows fatigue with heavy, weary strokes."
     recommendations :=
       [{ title := "Rest Permission", description := "Give yourself permission to rest without guilt - you deserve it.", icon := "😴" },
        { title := "Gentle Restoration", description := "Take a warm bath or shower to refresh your body and mind.", icon := "🛁" },
        { title := "Energy Foods", description := "Eat something nourishing and drink plenty of water.", icon := "🍎" }] },
   { primaryMood := "angry"
     confidence := 0.84 + rs 7 * 0.11
     description := "Your drawing shows sharp, aggressive strokes indicating intense anger."
     recommendations :=
       [{ title := "Safe Physical Release", description := "Punch a pillow, do jumping jacks, or go for a vigorous run.", icon := "🥊" },
        { title := "Cool Down Time", description := "Take 10 deep breaths and count to 20 before responding.", icon := "❄️" },
        { title := "Express Safely", description := "Write about your anger or talk to someone you trust.", icon := "✍️" }] },
   { primaryMood := "excited"
     confidence := 0.91 + rs 8 * 0.07
     description := "Your drawing bursts with enthusiasm and anticipatory energy."
     recommendations :=
       [{ title := "Channel Excitement", description := "Use this energy to work on something you\x27re passionate about.", icon := "🚀" },
        { title := "Share the Buzz", description := "Tell someone about what\x27s got you so excited!", icon := "📢" },
        { title := "Plan Action", description := "Make concrete plans to act on whatever is exciting you.", icon := "📋" }] },
   { primaryMood := "peaceful"
     confidence := 0.86 + rs 9 * 0.09
     description := "Your drawing emanates serenity with soft, harmonious lines."
     recommendations :=
       [{ title := "Savor the Peace", description := "Sit quietly and fully experience this beautiful sense of calm.", icon := "🕊️" },
        { title := "Meditation Time", description := "Spend 10-15 minutes in peaceful meditation or prayer.", icon := "🧘‍♀️" },
        { title := "Share Serenity", description := "Be a calming presence for someone who might need it.", icon := "☮️" }] },
   { primaryMood := "confident"
     confidence := 0.88 + rs 10 * 0.08
     description := "Your drawing shows bold, decisive strokes reflecting strong self-assurance."
     recommendations :=
       [{ title := "Take Bold Action", description := "Use this confidence to tackle something challenging.", icon := "💪" },
        { title := "Lead Others", description := "Step up and offer leadership or guidance to someone.", icon := "👑" },
        { title := "Set Big Goals", description := "This is the perfect time to aim high and dream big.", icon := "🎯" }] },
   { primaryMood := "overwhelmed"
     confidence := 0.81 + rs 11 * 0.14
     description := "Your drawing shows chaotic, overlapping lines suggesting you feel swamped."
     recommendations :=
       [{ title := "Priority List", description := "Write down everything, then pick just the top 3 most important items.", icon := "📝" },
        { title := "Take a Break", description := "Step away for 15 minutes - even overwhelm needs a pause.", icon := "⏸️" },
        { title := "Ask for Help", description := "Reach out to someone who can assist or just listen.", icon := "🆘" }] },
   { primaryMood := "lonely"
     confidence := 0.77 + rs 12 * 0.13
     description := "Your drawing has isolated elements suggesting you\x27re feeling disconnected."
     recommendations :=
       [{ title := "Reach Out", description := "Send a text or make a call to someone you care about.", icon := "📱" },
        { title := "Join Something", description := "Look for a group, class, or community activity to join.", icon := "👥" },
        { title := "Self-Compassion", description := "Be gentle with yourself - loneliness is temporary and normal.", icon := "💝" }] },
   { primaryMood := "frustrated"
     confidence := 0.85 + rs 13 * 0.10
     description := "Your drawing shows blocked, jagged energy indicating frustration."
     recommendations :=
       [{ title := "Step Away", description := "Take a break from whatever is frustrating you right now.", icon := "🚪" },
        { title := "Physical Release", description := "Do some vigorous exercise to discharge the frustrated energy.", icon := "🏃" },
        { title := "New Approach", description := "Try tackling the problem from a completely different angle.", icon := "🔄" }] },
   { primaryMood := "inspired"
     confidence := 0.93 + rs 14 * 0.05
     description := "Your drawing flows with creative inspiration and visionary energy."
     recommendations :=
       [{ title := "Capture the Vision", description := "Write down or sketch your inspired ideas immediately.", icon := "💡" },
        { title := "Take Action", description := "Start working on whatever is inspiring you - strike while the iron is hot!", icon := "⚡" },
        { title := "Share Inspiration", description := "Tell others about your vision - inspiration is contagious.", icon := "✨" }] }]

/-- The placeholder for the out-of-range `moodDatabase[selectedMood]` access
(unreachable while the selection draw stays in `[0, 1)`). -/
def undefinedMoodData : AnalysisResult :=
  { primaryMood := "undefined", confidence := 0, description := "", recommendations := [] }

/-- `generateMockAnalysis()`: evaluate the mood database (draws
`rs 0` … `rs 14`), pick `moodKeys[Math.floor(Math.random() * 15)]` with draw
`rs 15`, and attach the mock metadata (`processingTime` uses draw `rs 16`). -/
def generateMockAnalysis (rs : Nat → ℚ) : AnalysisResult :=
  let randomIndex : Nat := (Int.floor (rs 15 * 15)).toNat
  let moodData := (mockMoodData rs).getD randomIndex undefinedMoodData
  { moodData with
      processingTime := 800 + rs 16 * 400
      isMockData := true }

/-- The environment `analyzeMood` runs in: whether `getApiKey('openai')`
returned a key, the `isDevelopment()` flag, and the
`getBusinessCategoriesForMood` table — all from `src/config/environment.js`,
which is not among the analysed sources. -/
structure AnalysisEnv where
  hasApiKey : Bool
  isDev : Bool
  bizCat : String → List String

/-- `analyzeMood(exportData)`.  `apiResult` is the outcome of
`callOpenAIAPI` (only consulted on the real-API path); `rs` feeds
`generateMockAnalysis`.  The try-block either returns a result (paired with
the quota state after any `incrementUsage`) or throws; the catch re-throws
errors whose message contains `'quota exceeded'` and converts every other
failure into `generateFallbackAnalysis`.  The cache write-back and the
best-effort persistence calls (`storeAnalysisResult`, `saveMoodToTiDB`,
which swallow their own errors) do not affect the returned value and are not
modelled. -/
def analyzeMood (env : AnalysisEnv) (quota : QuotaState)
    (cache : List (String × AnalysisResult)) (exportData : Option ExportData)
    (apiResult : Except String AnalysisResult) (rs : Nat → ℚ) :
    Except String (AnalysisResult × QuotaState) :=
  let finish (r : AnalysisResult) (q : QuotaState) : Except String (AnalysisResult × QuotaState) :=
    Except.ok
      ({ r with
          metadata := { isFallback := false, error := none }
          businessCategories := env.bizCat r.primaryMood }, q)
  let attempt : Except String (AnalysisResult × QuotaState) :=
    if ¬RateLimiter.checkQuota quota "openai" then
      Except.error (quotaErrorMsg quota.services.openai.used quota.services.openai.limit)
    else if ¬payloadValid exportData then
      Except.error "Invalid drawing data provided"
    else
      let url := ((exportData.getD { dataUrl := none }).dataUrl).getD ""
      match cache.lookup (generateCacheKey url) with
      | some cached => Except.ok (cached, quota)
      | none =>
        if env.hasApiKey ∧ ¬env.isDev then
          match apiResult with
          | Except.error e => Except.error e
          | Except.ok r => finish r (RateLimiter.incrementUsage quota "openai").2
        else
          finish (generateMockAnalysis rs) quota
  match attempt with
  | Except.ok v => Except.ok v
  | Except.error e =>
    if msgIncludes e "quota exceeded" then Except.error e
    else Except.ok (generateFallbackAnalysis e env.bizCat, quota)

end MoodAnalysisService

/-! ## Lemmas about the rate limiter -/

lemma QuotaServices.get_set (q : QuotaServices) (t s : Service) (v : ServiceQuota) :
    (q.set t v).get s = if s = t then v else q.get s := by
  cases t <;> cases s <;> simp [QuotaServices.set, QuotaServices.get]

/-- One `incrementUsage` call preserves `used ≤ limit` for every service. -/
lemma incrementUsage_preserves_le (st : QuotaState) (name : String) (s : Service)
    (h : (st.services.get s).used ≤ (st.services.get s).limit) :
    (((RateLimiter.incrementUsage st name).2).services.get s).used
      ≤ (((RateLimiter.incrementUsage st name).2).services.get s).limit := by
  unfold RateLimiter.incrementUsage
  cases hl : lookupService name with
  | none => simpa using h
  | some t =>
    simp only []
    by_cases hle : (st.services.get t).used ≥ (st.services.get t).limit
    · simpa [hle] using h
    · simp only [hle, if_false, QuotaServices.get_set]
      by_cases hst : s = t
      · subst hst; simp; omega
      · simpa [hst] using h

/-- The `used ≤ limit` invariant survives any sequence of `incrementUsage`
calls. -/
lemma applyIncrements_preserves_le (calls : List String) (st : QuotaState)
    (h : ∀ s, (st.services.get s).used ≤ (st.services.get s).limit) (s : Service) :
    ((RateLimiter.applyIncrements st calls).services.get s).used
      ≤ ((RateLimiter.applyIncrements st calls).services.get s).limit := by
  induction calls generalizing st with
  | nil => exact h s
  | cons c cs ih =>
    exact ih (RateLimiter.incrementUsage st c).2
      (fun t => incrementUsage_preserves_le st c t (h t))

lemma lookupService_name (s : Service) : lookupService s.name = some s := by
  cases s <;> rfl

/-! ## Claim theorems: rate limiter -/

/-- Claim C1: for every known service `s` (openai / googlePlaces / database)
and every finite sequence of `incrementUsage` calls starting from the default
quota state of one calendar day, `getRemainingQuota(s) + used(s) = limit(s)`
holds after the sequence, and `used(s)` never exceeds `limit(s)`. -/
theorem C1_quota_invariant (today nextMidnight : String) (calls : List String) (s : Service) :
    let st := RateLimiter.applyIncrements
      (RateLimiter.createDefaultQuotas today nextMidnight) calls
    RateLimiter.getRemainingQuota st s.name + ((st.services.get s).used : Int)
        = ((st.services.get s).limit : Int)
      ∧ (st.services.get s).used ≤ (st.services.get s).limit := by
  intro st
  have hle : (st.services.get s).used ≤ (st.services.get s).limit := by
    apply applyIncrements_preserves_le
    intro t
    cases t <;> simp [RateLimiter.createDefaultQuotas, QuotaServices.get, RATE_LIMITS]
  refine ⟨?_, hle⟩
  have hr : RateLimiter.getRemainingQuota st s.name
      = max 0 (((st.services.get s).limit : Int) - ((st.services.get s).used : Int)) := by
    unfold RateLimiter.getRemainingQuota
    rw [lookupService_name]
  rw [hr]
  omega

/-- Claim C2: for every known service whose counter satisfies `used = limit`,
`incrementUsage` returns `false` and leaves the state unchanged; and in the
concrete scenario of a fresh day (classifier limit 50), the first 50
consecutive `incrementUsage` calls on the classifier service (`"openai"`)
all return `true`, the 51st returns `false`, and `checkQuota` then returns
`false`. -/
theorem C2_increment_at_limit :
    (∀ (st : QuotaState) (name : String) (s : Service),
        lookupService name = some s →
        (st.services.get s).used = (st.services.get s).limit →
        RateLimiter.incrementUsage st name = (false, st))
    ∧ (let st0 := RateLimiter.createDefaultQuotas "2024-01-15" "2024-01-16T00:00:00.000Z"
       let run := RateLimiter.incrementRun st0 "openai" 51
       run.1 = List.replicate 50 true ++ [false]
         ∧ RateLimiter.checkQuota run.2 "openai" = false) := by
  constructor
  · intro st name s hl hev
    unfold RateLimiter.incrementUsage
    rw [hl]
    simp [hev]
  · exact ⟨by decide, by decide⟩

/-- Witness for C2: the general part applied to a concrete state whose
`openai` counter sits exactly at its limit. -/
theorem C2_increment_at_limit_witness :
    RateLimiter.incrementUsage
        { date := "2024-01-15"
          services :=
            { openai := { used := 50, limit := 50 }
              googlePlaces := { used := 3, limit := 250 }
              database := { used := 7, limit := 1000 } }
          resetTime := "2024-01-16T00:00:00.000Z" } "openai"
      = (false,
        { date := "2024-01-15"
          services :=
            { openai := { used := 50, limit := 50 }
              googlePlaces := { used := 3, limit := 250 }
              database := { used := 7, limit := 1000 } }
          resetTime := "2024-01-16T00:00:00.000Z" }) :=
  C2_increment_at_limit.1 _ "openai" .openai rfl rfl

/-- Claim C6: when the stored quota record's date string differs from the
current day's date string, the start-up check run by the first rate-limiter
operation of the new day fully resets the record: `used` becomes 0 for every
service, the record's date becomes today, and the reset timestamp is
recomputed to the next-local-midnight value (`getNextMidnight()`, passed here
as the `nextMidnight` parameter). -/
theorem C6_daily_reset (q : QuotaState) (today nextMidnight : String)
    (h : q.date ≠ today) :
    let st := RateLimiter.init (some q) today nextMidnight
    (∀ s, (st.services.get s).used = 0) ∧ st.date = today ∧ st.resetTime = nextMidnight := by
  intro st
  have hst : st = RateLimiter.createDefaultQuotas today nextMidnight := by
    simp only [st, RateLimiter.init, RateLimiter.loadQuotas, Option.getD_some,
      RateLimiter.checkAndResetDaily, RateLimiter.resetDailyCounters]
    rw [if_pos h]
  rw [hst]
  refine ⟨fun s => ?_, rfl, rfl⟩
  cases s <;> rfl

/-- Witness for C6: a stored record from 2024-01-14 with nonzero counters is
reset on the first access of 2024-01-15. -/
theorem C6_daily_reset_witness :
    ((RateLimiter.init
        (some { date := "2024-01-14"
                services :=
                  { openai := { used := 12, limit := 50 }
                    googlePlaces := { used := 4, limit := 250 }
                    database := { used := 900, limit := 1000 } }
                resetTime := "2024-01-15T00:00:00.000Z" })
        "2024-01-15" "2024-01-16T00:00:00.000Z").services.get .openai).used = 0
    ∧ ((RateLimiter.init
        (some { date := "2024-01-14"
                services :=
                  { openai := { used := 12, limit := 50 }
                    googlePlaces := { used := 4, limit := 250 }
                    database := { used := 900, limit := 1000 } }
                resetTime := "2024-01-15T00:00:00.000Z" })
        "2024-01-15" "2024-01-16T00:00:00.000Z").services.get .database).used = 0 :=
  ⟨(C6_daily_reset _ "2024-01-15" "2024-01-16T00:00:00.000Z" (by decide)).1 .openai,
   (C6_daily_reset _ "2024-01-15" "2024-01-16T00:00:00.000Z" (by decide)).1 .database⟩

/-! ## Lemmas about substring search (the catch clause's
`error.message.includes('quota exceeded')`) -/

namespace MoodAnalysisService

lemma takesLead_append (pat a b : List Char) (h : takesLead pat a = true) :
    takesLead pat (a ++ b) = true := by
  induction pat generalizing a with
  | nil => rfl
  | cons p ps ih =>
    cases a with
    | nil => simp [takesLead] at h
    | cons x xs =>
      simp only [takesLead, Bool.and_eq_true] at h
      simp only [List.cons_append, takesLead, Bool.and_eq_true]
      exact ⟨h.1, ih xs h.2⟩

lemma occursIn_nil_pat (s : List Char) : occursIn [] s = true := by
  cases s <;> simp [occursIn, takesLead]

lemma occursIn_append_left (pat a b : List Char) (h : occursIn pat a = true) :
    occursIn pat (a ++ b) = true := by
  induction a with
  | nil =>
    cases pat with
    | nil => exact occursIn_nil_pat b
    | cons p ps => simp [occursIn, takesLead] at h
  | cons x xs ih =>
    simp only [occursIn, Bool.or_eq_true] at h
    simp only [List.cons_append, occursIn, Bool.or_eq_true]
    rcases h with h | h
    · exact Or.inl (takesLead_append pat (x :: xs) b h)
    · exact Or.inr (ih h)

/-- The quota error message always contains `'quota exceeded'`, whatever the
interpolated counters are. -/
lemma quotaErrorMsg_includes (u l : Nat) :
    msgIncludes (quotaErrorMsg u l) "quota exceeded" = true := by
  unfold msgIncludes quotaErrorMsg
  simp only [String.data_append]
  apply occursIn_append_left
  apply occursIn_append_left
  apply occursIn_append_left
  apply occursIn_append_left
  decide

end MoodAnalysisService

/-! ## Claim theorems: persistence quota guard -/

lemma checkQuota_database (st : QuotaState) :
    RateLimiter.checkQuota st "database"
      = decide ((st.services.get .database).used < (st.services.get .database).limit) := rfl

/-- Counterexample to claim C5 as stated: with the database-operation quota
exhausted (`used = limit = 1000`), `saveSession` rejects with the quota
error rather than silently degrading to a local-only cache. -/
theorem C5_counterexample :
    LocalStorageManager.saveSession
        { quota :=
            { date := "2024-01-15"
              services :=
                { openai := { used := 0, limit := 50 }
                  googlePlaces := { used := 0, limit := 250 }
                  database := { used := 1000, limit := 1000 } }
              resetTime := "2024-01-16T00:00:00.000Z" }
          sessions := []
          moodHistory := [] } "session-payload"
      = Except.error "Daily database operation limit exceeded" := rfl

/-- Claim C5 (amended): when the database-operation quota is exhausted,
`saveSession` and `saveMoodEntry` fail the caller: both reject with the
`'Daily database operation limit exceeded'` error thrown inside
`checkDatabaseQuota` (the local-only-cache fallback branches in their bodies
are unreachable because `checkDatabaseQuota` throws instead of returning
false). -/
theorem C5_write_fails_when_quota_exhausted (st : LocalStorageManager.StorageState)
    (data : String)
    (h : (st.quota.services.get .database).limit ≤ (st.quota.services.get .database).used) :
    LocalStorageManager.saveSession st data
        = Except.error "Daily database operation limit exceeded"
    ∧ LocalStorageManager.saveMoodEntry st data
        = Except.error "Daily database operation limit exceeded" := by
  have hb : RateLimiter.checkQuota st.quota "database" = false := by
    rw [checkQuota_database]
    simp only [decide_eq_false_iff_not, not_lt]
    exact h
  have hq : LocalStorageManager.checkDatabaseQuota st.quota
      = Except.error "Daily database operation limit exceeded" := by
    unfold LocalStorageManager.checkDatabaseQuota
    rw [hb]
    rfl
  unfold LocalStorageManager.saveSession LocalStorageManager.saveMoodEntry
  rw [hq]
  exact ⟨rfl, rfl⟩

/-- Witness for the amended C5: concrete exhausted state. -/
theorem C5_write_fails_witness :
    LocalStorageManager.saveMoodEntry
        { quota :=
            { date := "2024-01-15"
              services :=
                { openai := { used := 0, limit := 50 }
                  googlePlaces := { used := 0, limit := 250 }
                  database := { used := 1000, limit := 1000 } }
              resetTime := "2024-01-16T00:00:00.000Z" }
          sessions := []
          moodHistory := [] } "mood-entry-payload"
      = Except.error "Daily database operation limit exceeded" :=
  (C5_write_fails_when_quota_exhausted _ "mood-entry-payload" (by decide)).2

/-! ## Claim theorems: advice ranking -/

namespace MoodAdviceService

/-- The `` `${category}-${title}` `` de-duplication key. -/
def adviceKey (item : AdviceItem) : String := item.category ++ "-" ++ item.title

/-- `removeDuplicateAdviceAux` emits no key in `seen` and no key twice. -/
lemma removeDuplicateAdviceAux_spec (l : List AdviceItem) (seen : List String) :
    (∀ x ∈ removeDuplicateAdviceAux seen l, adviceKey x ∉ seen)
    ∧ (removeDuplicateAdviceAux seen l).Pairwise (fun a b => adviceKey a ≠ adviceKey b) := by
  induction l generalizing seen with
  | nil => exact ⟨by simp [removeDuplicateAdviceAux], by simp [removeDuplicateAdviceAux]⟩
  | cons i rest ih =>
    have hstep : removeDuplicateAdviceAux seen (i :: rest)
        = if seen.contains (i.category ++ "-" ++ i.title)
          then removeDuplicateAdviceAux seen rest
          else i :: removeDuplicateAdviceAux ((i.category ++ "-" ++ i.title) :: seen) rest := rfl
    by_cases hc : seen.contains (i.category ++ "-" ++ i.title)
    · have hout : removeDuplicateAdviceAux seen (i :: rest)
          = removeDuplicateAdviceAux seen rest := by
        rw [hstep, if_pos hc]
      rw [hout]
      exact ih seen
    · have ihtail := ih ((i.category ++ "-" ++ i.title) :: seen)
      have hout : removeDuplicateAdviceAux seen (i :: rest)
          = i :: removeDuplicateAdviceAux ((i.category ++ "-" ++ i.title) :: seen) rest := by
        rw [hstep, if_neg hc]
      rw [hout]
      have hiseen : adviceKey i ∉ seen := by
        simpa [adviceKey] using hc
      constructor
      · intro x hx
        rcases List.mem_cons.mp hx with hxi | hxtail
        · subst hxi; exact hiseen
        · intro hxseen
          exact (ihtail.1 x hxtail) (List.mem_cons_of_mem _ hxseen)
      · refine List.pairwise_cons.mpr ⟨?_, ihtail.2⟩
        intro y hy
        have := ihtail.1 y hy
        simp only [List.mem_cons, not_or] at this
        exact fun hk => this.1 (by simpa [adviceKey] using hk.symm)

/-- `removeDuplicateAdvice` output has pairwise-distinct keys. -/
lemma removeDuplicateAdvice_pairwise (l : List AdviceItem) :
    (removeDuplicateAdvice l).Pairwise (fun a b => adviceKey a ≠ adviceKey b) :=
  (removeDuplicateAdviceAux_spec l []).2

/-- Distinct keys imply distinct `(category, title)` pairs. -/
lemma adviceKey_ne_of_pair_ne (a b : AdviceItem)
    (h : a.category = b.category ∧ a.title = b.title) : adviceKey a = adviceKey b := by
  simp [adviceKey, h.1, h.2]

/-- Inserting into the sorted list is a permutation of consing. -/
lemma insertScored_perm (x : AdviceItem) (l : List AdviceItem) :
    (insertScored x l).Perm (x :: l) := by
  induction l with
  | nil => exact List.Perm.refl _
  | cons y ys ih =>
    have hstep : insertScored x (y :: ys)
        = if scoreOf y ≤ scoreOf x then x :: y :: ys else y :: insertScored x ys := rfl
    rw [hstep]
    split
    · exact List.Perm.refl _
    · exact (ih.cons y).trans (List.Perm.swap x y ys)

/-- The stable score-descending sort is a permutation of its input. -/
lemma sortByScoreDesc_perm (l : List AdviceItem) : (sortByScoreDesc l).Perm l := by
  induction l with
  | nil => exact List.Perm.refl _
  | cons x xs ih =>
    have hstep : sortByScoreDesc (x :: xs) = insertScored x (sortByScoreDesc xs) := rfl
    rw [hstep]
    exact (insertScored_perm x (sortByScoreDesc xs)).trans (ih.cons x)

/-- Shape of `personalizeAdvice`'s output: at most 6 items, pairwise-distinct
keys when the input keys are pairwise distinct, and the internal score field
stripped from every item. -/
lemma personalizeAdvice_shape (advice : List AdviceItem) (moodResult : MoodResult)
    (userHistory : List Session)
    (h : advice.Pairwise (fun a b => adviceKey a ≠ adviceKey b)) :
    (personalizeAdvice advice moodResult userHistory).length ≤ 6
    ∧ (personalizeAdvice advice moodResult userHistory).Pairwise
        (fun a b => adviceKey a ≠ adviceKey b)
    ∧ ∀ item ∈ personalizeAdvice advice moodResult userHistory,
        item.relevanceScore = none := by
  unfold personalizeAdvice
  set score := fun item : AdviceItem =>
    ({ item with relevanceScore := some (calculateRelevanceScore item moodResult userHistory) } : AdviceItem)
  set scored := advice.map score with hscored
  have hscored_pw : scored.Pairwise (fun a b => adviceKey a ≠ adviceKey b) := by
    rw [hscored, List.pairwise_map]
    exact h.imp (fun {a b} hab => by simpa [score, adviceKey] using hab)
  set sorted := sortByScoreDesc scored with hsorted
  have hsorted_pw : sorted.Pairwise (fun a b => adviceKey a ≠ adviceKey b) := by
    have hperm : sorted.Perm scored := sortByScoreDesc_perm scored
    exact (hperm.pairwise_iff (fun {x y} h => Ne.symm h)).mpr hscored_pw
  set filtered :=
    if moodResult.confidence > 0.8 then
      sorted.filter (fun item => item.difficulty = "easy" ∨ item.category = "immediate_relief")
    else sorted
    with hfiltered
  have hfiltered_pw : filtered.Pairwise (fun a b => adviceKey a ≠ adviceKey b) := by
    rw [hfiltered]
    split
    · exact List.Pairwise.sublist (List.filter_sublist _) hsorted_pw
    · exact hsorted_pw
  refine ⟨?_, ?_, ?_⟩
  · calc ((filtered.take 6).map _).length = (filtered.take 6).length := List.length_map _ _
      _ ≤ 6 := List.length_take_le 6 filtered
  · rw [List.pairwise_map]
    exact (List.Pairwise.sublist (List.take_sublist 6 filtered) hfiltered_pw).imp
      (fun {a b} hab => by simpa [adviceKey] using hab)
  · intro item hitem
    rcases List.mem_map.mp hitem with ⟨a, _, hfa⟩
    rw [← hfa]

/-- `personalizeAdvice` of an empty list is empty (in both filter
branches). -/
lemma personalizeAdvice_nil (moodResult : MoodResult) (userHistory : List Session) :
    personalizeAdvice [] moodResult userHistory = [] := by
  unfold personalizeAdvice
  simp only [List.map_nil]
  have hsort : sortByScoreDesc [] = [] := rfl
  rw [hsort]
  simp

/-- Counterexample to claim C3 as stated: the mood result
`{ primaryMood: "happy", confidence: 0.5, emotions: [] }` (a canonical mood
with no catalog category) yields an empty advice list, violating the claimed
lower bound of 1. -/
theorem C3_counterexample :
    (getAdviceForMood { primaryMood := "happy", confidence := 0.5, emotions := [] } [] 0).advice
      = [] := by
  have hbase : removeDuplicateAdvice
      (List.foldl
        (fun (acc : List AdviceItem) (e : Emotion) =>
          if e.intensity > 0.3 ∧ e.name ≠ "happy"
          then acc ++ getAdviceByCategory (toLowerCase e.name)
          else acc)
        (getAdviceByCategory (toLowerCase "happy")) ([] : List Emotion))
      = ([] : List AdviceItem) := rfl
  show personalizeAdvice _ _ _ = []
  rw [hbase]
  exact personalizeAdvice_nil _ _

/-- Claim C3 (amended): for every mood result and user history, the advice
list returned by `getAdviceForMood` has length at most 6, contains no two
items with the same `(category, title)` pair, and none of its items carries
the internal `relevanceScore` field; its length can however be 0 (so the
claimed lower bound of 1 does not hold), e.g. when the primary mood matches
no catalog category and no secondary emotion qualifies. -/
theorem C3_advice_output_shape (moodResult : MoodResult) (userHistory : List Session)
    (rand : Nat) :
    let adv := (getAdviceForMood moodResult userHistory rand).advice
    adv.length ≤ 6
    ∧ adv.Pairwise (fun a b => ¬(a.category = b.category ∧ a.title = b.title))
    ∧ ∀ item ∈ adv, item.relevanceScore = none := by
  intro adv
  have hshape := personalizeAdvice_shape
    (removeDuplicateAdvice
      (moodResult.emotions.foldl
        (fun acc e =>
          if e.intensity > 0.3 ∧ e.name ≠ moodResult.primaryMood
          then acc ++ getAdviceByCategory (toLowerCase e.name)
          else acc)
        (getAdviceByCategory (toLowerCase moodResult.primaryMood))))
    moodResult userHistory
    (removeDuplicateAdvice_pairwise _)
  refine ⟨hshape.1, ?_, hshape.2.2⟩
  exact hshape.2.1.imp (fun {a b} hab hpair => hab (adviceKey_ne_of_pair_ne a b hpair))

/-- Character filtering distributes over string concatenation. -/
lemma stripNonIdChars_append (a b : String) :
    stripNonIdChars (a ++ b) = stripNonIdChars a ++ stripNonIdChars b := by
  unfold stripNonIdChars
  rw [String.data_append a b, List.filter_append]
  rfl

/-- Counterexample to claim C7 as stated: the primary moods `"happy!"` and
`"happy?"` differ (same empty emotion list), yet `generateCacheId` maps both
mood results to the id `"happy-"`, because the regexp strip deletes `!` and
`?`. -/
theorem C7_counterexample :
    ("happy!" ≠ "happy?")
    ∧ generateCacheId { primaryMood := "happy!", confidence := 0.9, emotions := [] }
      = generateCacheId { primaryMood := "happy?", confidence := 0.9, emotions := [] } :=
  ⟨by decide, rfl⟩

/-- Claim C7 (amended): `generateCacheId` is a pure deterministic function of
`(primaryMood, emotions)` — identical input gives identical output — and two
mood results with the same emotions receive different ids whenever their
primary moods still differ after deleting the characters outside
`[a-zA-Z0-9:,-]` (the unamended claim, which asks this for any two different
primary moods, fails because that deletion can collapse distinct moods). -/
theorem C7_cacheId_deterministic_injective (mr1 mr2 : MoodResult)
    (he : mr1.emotions = mr2.emotions)
    (hm : stripNonIdChars mr1.primaryMood ≠ stripNonIdChars mr2.primaryMood) :
    generateCacheId mr1 = generateCacheId mr1
    ∧ generateCacheId mr1 ≠ generateCacheId mr2 := by
  refine ⟨rfl, ?_⟩
  intro heq
  apply hm
  unfold generateCacheId at heq
  rw [he] at heq
  simp only [stripNonIdChars_append] at heq
  have hdata := congrArg String.data heq
  simp only [String.data_append] at hdata
  have h1 := List.append_cancel_right hdata
  have h2 := List.append_cancel_right h1
  exact congrArg String.mk h2

/-- Witness for the amended C7: `"happy"` and `"sad"` survive the strip
unchanged and get different ids. -/
theorem C7_cacheId_witness :
    generateCacheId { primaryMood := "happy", confidence := 1, emotions := [] }
      ≠ generateCacheId { primaryMood := "sad", confidence := 1, emotions := [] } :=
  (C7_cacheId_deterministic_injective
    { primaryMood := "happy", confidence := 1, emotions := [] }
    { primaryMood := "sad", confidence := 1, emotions := [] }
    rfl (by decide)).2

/-- The relevance-score formula exactly as the specification words it (for
claim C9, to be compared with `calculateRelevanceScore` from the source):
base 0.5, plus 0.3 if the category equals the (lowercased) primary mood, plus
intensity×0.2 for each emotion whose (lowercased) name matches the category,
plus 0.1 if the difficulty is "easy" and confidence > 0.7 or the difficulty
is "medium" and confidence < 0.5, plus 0.15 if any prior session's advice
list contains an item of the same category, clamped to [0, 1]. -/
def specRelevanceScore (adviceItem : AdviceItem) (moodResult : MoodResult)
    (userHistory : List Session) : ℚ :=
  let moodBonus : ℚ :=
    if adviceItem.category = toLowerCase moodResult.primaryMood then 0.3 else 0
  let emotionBonus : ℚ :=
    (moodResult.emotions.map (fun e =>
      if adviceItem.category = toLowerCase e.name then e.intensity * 0.2 else 0)).sum
  let difficultyBonus : ℚ :=
    if (adviceItem.difficulty = "easy" ∧ moodResult.confidence > 0.7)
        ∨ (adviceItem.difficulty = "medium" ∧ moodResult.confidence < 0.5)
    then 0.1 else 0
  let historyBonus : ℚ :=
    if userHistory.any (fun session =>
        match session.advice with
        | none => false
        | some used => used.any (fun u => u.category = adviceItem.category))
    then 0.15 else 0
  max 0 (min (0.5 + moodBonus + emotionBonus + difficultyBonus + historyBonus) 1)

/-- The emotion-bonus fold is the initial value plus the sum of the
individual bonuses. -/
lemma foldl_emotion_sum (cat : String) (l : List Emotion) (init : ℚ) :
    l.foldl (fun acc e => if cat = toLowerCase e.name then acc + e.intensity * 0.2 else acc) init
      = init + (l.map (fun e =>
          if cat = toLowerCase e.name then e.intensity * 0.2 else 0)).sum := by
  induction l generalizing init with
  | nil => simp
  | cons e es ih =>
    simp only [List.foldl_cons, List.map_cons, List.sum_cons]
    by_cases hc : cat = toLowerCase e.name
    · rw [if_pos hc, if_pos hc, ih]; ring
    · rw [if_neg hc, if_neg hc, ih]; ring

/-- Clamping to `[0, 1]` is just the upper clamp when the value is
nonnegative. -/
lemma max0_min1 (x : ℚ) (hx : 0 ≤ x) : max 0 (min x 1) = min x 1 :=
  max_eq_right (le_min hx zero_le_one)

/-- Claim C9: for every advice item, mood result and user history (with the
data model's nonnegative emotion intensities), the relevance score computed
by `calculateRelevanceScore` equals the specification's formula: 0.5, plus
0.3 for a primary-mood category match, plus intensity×0.2 per matching
emotion, plus 0.1 for the stated difficulty/confidence combinations, plus
0.15 for a category already seen in a prior session's advice list, clamped
to [0, 1]. -/
theorem C9_relevance_score (adviceItem : AdviceItem) (moodResult : MoodResult)
    (userHistory : List Session)
    (h : ∀ e ∈ moodResult.emotions, 0 ≤ e.intensity) :
    calculateRelevanceScore adviceItem moodResult userHistory
      = specRelevanceScore adviceItem moodResult userHistory := by
  have hsum : 0 ≤ (moodResult.emotions.map (fun e =>
      if adviceItem.category = toLowerCase e.name then e.intensity * 0.2 else 0)).sum := by
    apply List.sum_nonneg
    intro x hx
    rcases List.mem_map.mp hx with ⟨e, he, rfl⟩
    by_cases hc : adviceItem.category = toLowerCase e.name
    · rw [if_pos hc]
      exact mul_nonneg (h e he) (by norm_num)
    · rw [if_neg hc]
  unfold calculateRelevanceScore specRelevanceScore
  dsimp only
  rw [foldl_emotion_sum]
  rw [max0_min1]
  · congr 1
    rcases Nat.eq_zero_or_pos userHistory.length with hlen | hlen
    · have hnil : userHistory = [] := List.length_eq_zero.mp hlen
      subst hnil
      simp only [List.any_nil, List.length_nil, lt_irrefl, if_false, Bool.false_eq_true]
      split_ifs <;> (try ring) <;> (exfalso; tauto)
    · rw [if_pos hlen]
      split_ifs <;> (try ring) <;> (exfalso; tauto)
  · have h1 : (0:ℚ) ≤ if adviceItem.category = toLowerCase moodResult.primaryMood
        then (0.3:ℚ) else 0 := by split <;> norm_num
    have h2 : (0:ℚ) ≤ if (adviceItem.difficulty = "easy" ∧ moodResult.confidence > 0.7)
          ∨ (adviceItem.difficulty = "medium" ∧ moodResult.confidence < 0.5)
        then (0.1:ℚ) else 0 := by split <;> norm_num
    have h3 : (0:ℚ) ≤ if userHistory.any (fun session =>
          match session.advice with
          | none => false
          | some used => used.any (fun u => u.category = adviceItem.category))
        then (0.15:ℚ) else 0 := by split <;> norm_num
    linarith [hsum, h1, h2, h3]

/-- Witness for C9: a concrete "easy anxiety advice for a confident anxiety
mood" instance. -/
theorem C9_relevance_score_witness :
    calculateRelevanceScore
        { category := "anxiety", title := "Deep Breathing Exercise"
          description := "", actionSteps := [], techniques := []
          duration := "5-10 minutes", difficulty := "easy" }
        { primaryMood := "anxiety", confidence := 0.9
          emotions := [{ name := "anxiety", intensity := 0.5 }] }
        []
      = specRelevanceScore
        { category := "anxiety", title := "Deep Breathing Exercise"
          description := "", actionSteps := [], techniques := []
          duration := "5-10 minutes", difficulty := "easy" }
        { primaryMood := "anxiety", confidence := 0.9
          emotions := [{ name := "anxiety", intensity := 0.5 }] }
        [] :=
  C9_relevance_score _ _ _ (by
    intro e he
    simp only [List.mem_singleton] at he
    subst he
    norm_num)

end MoodAdviceService

/-! ## Claim theorems: mood-analysis error handling -/

namespace MoodAnalysisService

/-- Counterexample to claim C4 as stated: with quota available and a missing
image payload (`exportData` absent), `analyzeMood` does not reject — the
internal `'Invalid drawing data provided'` error is caught and converted to
the fallback result, so the caller receives a successful value. -/
theorem C4_counterexample :
    analyzeMood
        { hasApiKey := true, isDev := false, bizCat := fun _ => [] }
        (RateLimiter.createDefaultQuotas "2024-01-15" "2024-01-16T00:00:00.000Z")
        [] none (Except.error "unused") (fun _ => 0)
      = Except.ok
          (generateFallbackAnalysis "Invalid drawing data provided" (fun _ => []),
           RateLimiter.createDefaultQuotas "2024-01-15" "2024-01-16T00:00:00.000Z") := rfl

/-- Claim C4 (amended): `analyzeMood` rejects with the quota-exceeded error
(propagated by the catch clause, never retried) whenever the rate limiter
denies the call; but when the image payload is absent or malformed (and
quota is available) the internal `InvalidInput`-style error is caught and
converted into the fallback result instead of being propagated to the
caller. -/
theorem C4_quota_propagates_invalid_input_does_not (env : AnalysisEnv)
    (quota : QuotaState) (cache : List (String × AnalysisResult))
    (exportData : Option ExportData) (apiResult : Except String AnalysisResult)
    (rs : Nat → ℚ) :
    (RateLimiter.checkQuota quota "openai" = false →
      analyzeMood env quota cache exportData apiResult rs
        = Except.error (quotaErrorMsg quota.services.openai.used quota.services.openai.limit))
    ∧ (RateLimiter.checkQuota quota "openai" = true →
      payloadValid exportData = false →
      analyzeMood env quota cache exportData apiResult rs
        = Except.ok (generateFallbackAnalysis "Invalid drawing data provided" env.bizCat,
            quota)) := by
  constructor
  · intro h
    have hq := quotaErrorMsg_includes quota.services.openai.used quota.services.openai.limit
    simp [analyzeMood, h, hq]
  · intro h1 h2
    have hni : msgIncludes "Invalid drawing data provided" "quota exceeded" = false := by
      decide
    simp [analyzeMood, h1, h2, hni]

/-- Witness for the amended C4: an exhausted quota state rejects; a fresh
quota state with a missing payload returns the fallback. -/
theorem C4_quota_propagates_witness :
    analyzeMood
        { hasApiKey := true, isDev := false, bizCat := fun _ => [] }
        { date := "2024-01-15"
          services :=
            { openai := { used := 50, limit := 50 }
              googlePlaces := { used := 0, limit := 250 }
              database := { used := 0, limit := 1000 } }
          resetTime := "2024-01-16T00:00:00.000Z" }
        [] (some { dataUrl := some "data:image/png;base64,AAAA" })
        (Except.error "unused") (fun _ => 0)
      = Except.error (quotaErrorMsg 50 50)
    ∧ analyzeMood
        { hasApiKey := true, isDev := false, bizCat := fun _ => [] }
        (RateLimiter.createDefaultQuotas "2024-01-15" "2024-01-16T00:00:00.000Z")
        [] (some { dataUrl := none }) (Except.error "unused") (fun _ => 0)
      = Except.ok
          (generateFallbackAnalysis "Invalid drawing data provided" (fun _ => []),
           RateLimiter.createDefaultQuotas "2024-01-15" "2024-01-16T00:00:00.000Z") :=
  ⟨(C4_quota_propagates_invalid_input_does_not _ _ _ _ _ _).1 rfl,
   (C4_quota_propagates_invalid_input_does_not _ _ _ _ _ _).2 rfl rfl⟩

/-- Claim C8: for every failure of the classifier path other than quota
exhaustion (any `callOpenAIAPI` error whose message does not contain
`'quota exceeded'`, e.g. the parse failure raised on a malformed non-JSON
response), `analyzeMood` returns — rather than raising — the deterministic
fallback result: fixed mood `"calm"`, confidence 0.5, and the
`metadata.isFallback` tag set. -/
theorem C8_fallback_on_classifier_failure (env : AnalysisEnv) (quota : QuotaState)
    (cache : List (String × AnalysisResult)) (ed : ExportData) (u : String)
    (e : String) (rs : Nat → ℚ)
    (hq : RateLimiter.checkQuota quota "openai" = true)
    (hurl : ed.dataUrl = some u) (hu : u ≠ "")
    (hmiss : cache.lookup (generateCacheKey u) = none)
    (hkey : env.hasApiKey = true) (hdev : env.isDev = false)
    (hnq : msgIncludes e "quota exceeded" = false) :
    analyzeMood env quota cache (some ed) (Except.error e) rs
      = Except.ok (generateFallbackAnalysis e env.bizCat, quota)
    ∧ (generateFallbackAnalysis e env.bizCat).primaryMood = "calm"
    ∧ (generateFallbackAnalysis e env.bizCat).confidence = 0.5
    ∧ (generateFallbackAnalysis e env.bizCat).metadata.isFallback = true := by
  refine ⟨?_, rfl, rfl, rfl⟩
  have hpv : payloadValid (some ed) = true := by
    simp [payloadValid, hurl, hu]
  simp [analyzeMood, hq, hpv, hurl, hmiss, hkey, hdev, hnq]

/-- Witness for C8: a malformed (non-JSON) classifier response on a fresh
day returns the tagged fallback result. -/
theorem C8_fallback_witness :
    analyzeMood
        { hasApiKey := true, isDev := false, bizCat := fun _ => [] }
        (RateLimiter.createDefaultQuotas "2024-01-15" "2024-01-16T00:00:00.000Z")
        [] (some { dataUrl := some "data:image/png;base64,AAAA" })
        (Except.error "Failed to parse mood analysis response: Unexpected token")
        (fun _ => 0)
      = Except.ok
          (generateFallbackAnalysis
            "Failed to parse mood analysis response: Unexpected token" (fun _ => []),
           RateLimiter.createDefaultQuotas "2024-01-15" "2024-01-16T00:00:00.000Z") :=
  (C8_fallback_on_classifier_failure
    { hasApiKey := true, isDev := false, bizCat := fun _ => [] }
    (RateLimiter.createDefaultQuotas "2024-01-15" "2024-01-16T00:00:00.000Z")
    [] { dataUrl := some "data:image/png;base64,AAAA" } "data:image/png;base64,AAAA"
    "Failed to parse mood analysis response: Unexpected token" (fun _ => 0)
    rfl rfl (by decide) rfl rfl rfl (by decide)).1

/-- Confidence bands `lo + x * w` stay strictly inside `(0, 1)` for a draw
`x ∈ [0, 1)` when `0 < lo`, `0 < w` and `lo + w ≤ 1`. -/
lemma confidence_band (x lo w : ℚ) (hx0 : 0 ≤ x) (hx1 : x < 1)
    (hlo : 0 < lo) (hw : 0 < w) (hsum : lo + w ≤ 1) :
    0 < lo + x * w ∧ lo + x * w < 1 := by
  constructor
  · nlinarith
  · nlinarith

/-- Every entry of the mock mood database has a canonical primary mood and a
confidence strictly inside `(0, 1)`, for draws in `[0, 1)`. -/
lemma mockMoodData_props (rs : Nat → ℚ) (h : ∀ n, 0 ≤ rs n ∧ rs n < 1) :
    ∀ x ∈ mockMoodData rs,
      x.primaryMood ∈ validMoods ∧ 0 < x.confidence ∧ x.confidence < 1 := by
  intro x hx
  simp only [mockMoodData, List.mem_cons, List.not_mem_nil, or_false] at hx
  rcases hx with rfl | rfl | rfl | rfl | rfl | rfl | rfl | rfl | rfl | rfl | rfl | rfl | rfl | rfl | rfl
  · exact ⟨by simp [validMoods], confidence_band (rs 0) 0.85 0.1 (h 0).1 (h 0).2
      (by norm_num) (by norm_num) (by norm_num)⟩
  · exact ⟨by simp [validMoods], confidence_band (rs 1) 0.75 0.15 (h 1).1 (h 1).2
      (by norm_num) (by norm_num) (by norm_num)⟩
  · exact ⟨by simp [validMoods], confidence_band (rs 2) 0.78 0.12 (h 2).1 (h 2).2
      (by norm_num) (by norm_num) (by norm_num)⟩
  · exact ⟨by simp [validMoods], confidence_band (rs 3) 0.82 0.08 (h 3).1 (h 3).2
      (by norm_num) (by norm_num) (by norm_num)⟩
  · exact ⟨by simp [validMoods], confidence_band (rs 4) 0.87 0.08 (h 4).1 (h 4).2
      (by norm_num) (by norm_num) (by norm_num)⟩
  · exact ⟨by simp [validMoods], confidence_band (rs 5) 0.89 0.06 (h 5).1 (h 5).2
      (by norm_num) (by norm_num) (by norm_num)⟩
  · exact ⟨by simp [validMoods], confidence_band (rs 6) 0.73 0.12 (h 6).1 (h 6).2
      (by norm_num) (by norm_num) (by norm_num)⟩
  · exact ⟨by simp [validMoods], confidence_band (rs 7) 0.84 0.11 (h 7).1 (h 7).2
      (by norm_num) (by norm_num) (by norm_num)⟩
  · exact ⟨by simp [validMoods], confidence_band (rs 8) 0.91 0.07 (h 8).1 (h 8).2
      (by norm_num) (by norm_num) (by norm_num)⟩
  · exact ⟨by simp [validMoods], confidence_band (rs 9) 0.86 0.09 (h 9).1 (h 9).2
      (by norm_num) (by norm_num) (by norm_num)⟩
  · exact ⟨by simp [validMoods], confidence_band (rs 10) 0.88 0.08 (h 10).1 (h 10).2
      (by norm_num) (by norm_num) (by norm_num)⟩
  · exact ⟨by simp [validMoods], confidence_band (rs 11) 0.81 0.14 (h 11).1 (h 11).2
      (by norm_num) (by norm_num) (by norm_num)⟩
  · exact ⟨by simp [validMoods], confidence_band (rs 12) 0.77 0.13 (h 12).1 (h 12).2
      (by norm_num) (by norm_num) (by norm_num)⟩
  · exact ⟨by simp [validMoods], confidence_band (rs 13) 0.85 0.10 (h 13).1 (h 13).2
      (by norm_num) (by norm_num) (by norm_num)⟩
  · exact ⟨by simp [validMoods], confidence_band (rs 14) 0.93 0.05 (h 14).1 (h 14).2
      (by norm_num) (by norm_num) (by norm_num)⟩

/-- Claim C10: for every draw of the underlying random source (each draw in
`[0, 1)`), `generateMockAnalysis` produces a result whose `primaryMood`
belongs to the canonical 15-value mood enumeration, whose confidence lies
strictly within `[0, 1]`, and whose `isMockData` marker is `true`. -/
theorem C10_mock_analysis_invariants (rs : Nat → ℚ) (h : ∀ n, 0 ≤ rs n ∧ rs n < 1) :
    (generateMockAnalysis rs).primaryMood ∈ validMoods
    ∧ 0 < (generateMockAnalysis rs).confidence
    ∧ (generateMockAnalysis rs).confidence < 1
    ∧ (generateMockAnalysis rs).isMockData = true := by
  have h15 := h 15
  have hconv : generateMockAnalysis rs
      = { (mockMoodData rs).getD (Int.floor (rs 15 * 15)).toNat undefinedMoodData with
          processingTime := 800 + rs 16 * 400
          isMockData := true } := rfl
  have hlt : (Int.floor (rs 15 * 15)).toNat < 15 := by
    have h1 : rs 15 * 15 < ((15:ℤ) : ℚ) := by
      push_cast
      nlinarith [h15.1, h15.2]
    have h2 : Int.floor (rs 15 * 15) < (15:ℤ) := Int.floor_lt.mpr h1
    have h3 : (0:ℤ) ≤ Int.floor (rs 15 * 15) :=
      Int.floor_nonneg.mpr (by nlinarith [h15.1])
    omega
  have hlen : (Int.floor (rs 15 * 15)).toNat < (mockMoodData rs).length := by
    have : (mockMoodData rs).length = 15 := rfl
    omega
  have hmem : (mockMoodData rs).getD (Int.floor (rs 15 * 15)).toNat undefinedMoodData
      ∈ mockMoodData rs := by
    rw [List.getD_eq_getElem _ _ hlen]
    exact List.getElem_mem hlen
  obtain ⟨hm, hc0, hc1⟩ := mockMoodData_props rs h _ hmem
  rw [hconv]
  exact ⟨hm, hc0, hc1, rfl⟩

/-- Witness for C10: the constant draw 1/2. -/
theorem C10_mock_analysis_witness :
    (generateMockAnalysis (fun _ => 1/2)).primaryMood ∈ validMoods
    ∧ 0 < (generateMockAnalysis (fun _ => 1/2)).confidence
    ∧ (generateMockAnalysis (fun _ => 1/2)).confidence < 1
    ∧ (generateMockAnalysis (fun _ => 1/2)).isMockData = true :=
  C10_mock_analysis_invariants (fun _ => 1/2)
    (fun _ => ⟨by norm_num, by norm_num⟩)

end MoodAnalysisService

end MoodSpot
